import Mathlib

/-!
Shallow embedding of the locologic model-railroad control core
(crate `locologic`), translated from the Rust sources:

* `src/control/rail_system/components/mod.rs` — speed arithmetic, sensor
  state machine, switch state machine, signal request/grant protocol;
* `src/control/rail_system/components/signal_checks.rs` — block discovery
  (`Signal::search_block`) and the grant decision (`Signal::drive`);
* `src/control/train.rs` — lookahead block requests and route truncation;
* `src/control/rail_system/railroad.rs` — the topology builder.

Machine integers (`u8` speeds, `u16` addresses) are embedded as `Nat`;
`checked_add`/`checked_sub` are explicit, and the only wrapping addition
(`u8::add` inside `Speed::add`) is written `% 256`.  Rust `panic!`/`unwrap`
failures are embedded as `Except.error ()`.  Bus publications are returned
as explicit message values where a claim mentions them and are dropped where
only element state matters (publishing never changes element state).
-/

/-- Sensor/signal reservation status (`Status` in `components/mod.rs`). -/
inductive Status where
  | free
  | reserved
  | pathFree
  | occupied
deriving DecidableEq, Repr

/-- Physical occupancy level reported by the hardware (`SLevel`). -/
inductive SLevel where
  | occupied
  | free
deriving DecidableEq, Repr

namespace Status

/-- The `BitOr` impl on `Status` (`components/mod.rs`, `impl ops::BitOr`). -/
def or (s rhs : Status) : Status :=
  match s with
  | .free => rhs
  | .reserved => match rhs with
    | .occupied => rhs
    | _ => s
  | .pathFree => match rhs with
    | .free => s
    | _ => rhs
  | .occupied => s

end Status

/-- State of one occupancy sensor (`Sensor` in `components/mod.rs`):
its reservation `status`, the last physical `level` it stored, and the
train currently holding it.  The address, maximum speed, grace duration
and notifier do not take part in the claimed transitions. -/
structure SensorState where
  status : Status
  level : SLevel
  train : Option Nat
deriving DecidableEq, Repr

/-- A fresh sensor (`Sensor::new`): status `Free`, level `Free`, no train. -/
def sensorInit : SensorState :=
  { status := .free, level := .free, train := none }

namespace Sensor

/-- Rust `Sensor::block`: if a train already holds the sensor, nothing changes and
the call succeeds only for that same train; otherwise the train is recorded
and the status becomes `Reserved | status`. -/
def block (s : SensorState) (train : Nat) : SensorState × Bool :=
  match s.train with
  | some t => (s, t == train)
  | none =>
    ({ s with train := some train, status := Status.or .reserved s.status }, true)

/-- The `SLevel::Free` branch of `Sensor::handle_sensor_level`
(`Sensor::sensor_free`): with a train present the status is set to
`Reserved` and the grace timer is armed (the timer body is `freeSensor`
below); with no train the status is set to `Free`.  The stored `level`
field is not written in this branch. -/
def sensorFree (s : SensorState) : SensorState :=
  if s.train.isSome then { s with status := .reserved }
  else { s with status := .free }

/-- Rust `Sensor::handle_sensor_level`: an `Occupied` report publishes
`TrainOnSensor` (state-irrelevant) and stores the level; a `Free` report
runs `sensor_free`. -/
def handle_sensor_level (s : SensorState) (lv : SLevel) : SensorState :=
  match lv with
  | .occupied => { s with level := .occupied }
  | .free => sensorFree s

/-- Rust `Sensor::free`: if the given train holds the sensor, drop it and set the
status from the stored level (`Free` when the level is `Free`, else
`Occupied`). -/
def free (s : SensorState) (train : Nat) : SensorState :=
  match s.train with
  | some t =>
    if t == train then
      { s with train := none,
               status := if s.level == SLevel.free then .free else .occupied }
    else s
  | none => s

/-- The grace-timer body `Sensor::free_sensor`: if the sensor meanwhile
became `Occupied` nothing happens; otherwise the status is set to `Free`
and `free` is cascaded for the held train, if any. -/
def freeSensor (s : SensorState) : SensorState :=
  if s.status == Status.occupied then s
  else
    let s1 := { s with status := Status.free }
    match s1.train with
    | some t => free s1 t
    | none => s1

end Sensor

/-- One input to the sensor state machine: a `block` call, a physical level
report, the grace timer firing, or a `free` call. -/
inductive SensorOp where
  | block (train : Nat)
  | level (lv : SLevel)
  | grace
  | release (train : Nat)
deriving DecidableEq, Repr

/-- Apply one sensor operation to a sensor state. -/
def sensorStep (s : SensorState) : SensorOp → SensorState
  | .block t => (Sensor.block s t).1
  | .level lv => Sensor.handle_sensor_level s lv
  | .grace => Sensor.freeSensor s
  | .release t => Sensor.free s t

/-- Run a sequence of sensor operations from the initial sensor state. -/
def sensorRun (ops : List SensorOp) : SensorState :=
  ops.foldl sensorStep sensorInit

/-- Commanded speed of a train (`Speed` in `components/mod.rs`): a normal
stop, an emergency stop, or a drive value.  The payload is the `u8` of
`DefaultSpeedType`, embedded as a `Nat` kept below `256`. -/
inductive Speed where
  | stop
  | emergencyStop
  | drive (n : Nat)
deriving DecidableEq, Repr

namespace Speed

/-- The default acceleration of the `u8` speed type
(`SpeedType::default_acceleration` in `general/mod.rs`). -/
def defaultAcceleration : Nat := 5

/-- Rust `SpeedType::sub_to_speed` (`general/mod.rs`): the `u8`
`checked_sub`, degrading to `Stop` on underflow. -/
def subToSpeed (a b : Nat) : Speed :=
  if b ≤ a then .drive (a - b) else .stop

/-- The `Add` impl on `Speed`.  The payload addition is `u8` addition,
written with its release-mode wrapping `% 256` (it is never reached by the
claims checked here). -/
def add (s rhs : Speed) : Speed :=
  match rhs with
  | .stop | .emergencyStop => s
  | .drive spd => match s with
    | .stop => .drive spd
    | .emergencyStop => .drive spd
    | .drive spd2 => .drive ((spd + spd2) % 256)

/-- The `Sub` impl on `Speed`.  In the `Drive`/`Drive` arm the source
computes `spd.sub_to_speed(&spd2)` where `spd` is the right operand's
payload and `spd2` the left one's, i.e. right minus left. -/
def sub (s rhs : Speed) : Speed :=
  match rhs with
  | .stop | .emergencyStop => s
  | .drive spd => match s with
    | .stop => .stop
    | .emergencyStop => .emergencyStop
    | .drive spd2 => subToSpeed spd spd2

/-- The `Ord` impl on `Speed` (`EmergencyStop < Stop < Drive(_)`, drive
payloads by value). -/
def cmp (s other : Speed) : Ordering :=
  if s = other then .eq
  else match s with
    | .stop => if other = .emergencyStop then .gt else .lt
    | .emergencyStop => .lt
    | .drive spd => match other with
      | .drive o => compare spd o
      | _ => .gt

/-- Strict order on speeds, as used by the `<` and `>` comparisons of the
ramp loop. -/
def lt (s other : Speed) : Bool :=
  cmp s other == .lt

end Speed

/-- The body of `Train::speed_accelerator` (`train.rs`), run without any
interruption, with explicit fuel.  Each iteration steps `actual` by the
default acceleration toward `target`, breaking when the step crosses the
target; on break the final `TrainSpeed(target)` publication closes the
collected publication list.  `none` means the loop was still running after
`fuel` iterations. -/
def rampRun (fuel : Nat) (actual target : Speed) : Option (List Speed) :=
  match fuel with
  | 0 => none
  | fuel + 1 =>
    if Speed.lt actual target then
      let a := Speed.add actual (.drive Speed.defaultAcceleration)
      if Speed.lt target a then some [target]
      else (rampRun fuel a target).map (fun rest => a :: rest)
    else
      let a := Speed.sub actual (.drive Speed.defaultAcceleration)
      if Speed.lt a target then some [target]
      else (rampRun fuel a target).map (fun rest => a :: rest)

/-- State of one switch (`Switch` in `components/mod.rs`): the stored
direction `dir` and the acknowledgement flag `updated`. -/
inductive SwDir where
  | straight
  | curved
deriving DecidableEq, Repr

/-- A switch's mutable state: `dir` (the direction field) and `updated`
(the acknowledgement flag). -/
structure SwitchS where
  dir : SwDir
  updated : Bool
deriving DecidableEq, Repr

namespace Switch

/-- Rust `Switch::switch`: a no-op when the stored direction already equals
the request and the state is acknowledged; otherwise it clears the flag and
emits `Message::Switch(addr, dir)` (returned as the second component).  The
source never assigns `self.dir`. -/
def switch (s : SwitchS) (dir : SwDir) : SwitchS × Option SwDir :=
  if s.dir == dir && s.updated then (s, none)
  else ({ s with updated := false }, some dir)

/-- Rust `Switch::ack_switch_state`: on a matching direction the flag is
set; otherwise the flag is cleared and the stored direction is re-emitted
through `switch`. -/
def ack_switch_state (s : SwitchS) (dir : SwDir) : SwitchS × Option SwDir :=
  if dir == s.dir then ({ s with updated := true }, none)
  else switch { s with updated := false } s.dir

end Switch

/-- A node of the rail graph (`Node` in `components/mod.rs`), reduced to the
parts the verified operations inspect: the variant and its address.
Positions, switch types and the switch default-branch data are not read by
any of the embedded code paths. -/
inductive NodeT where
  | signal (adr : Nat)
  | sensor (adr : Nat)
  | switch (adr : Nat)
  | station (adr : Nat)
  | cross (adr : Nat)
  | buffer
deriving DecidableEq, Repr

namespace NodeT

/-- Rust `Node::is_driveable`: sensors and stations. -/
def is_driveable : NodeT → Bool
  | .sensor _ | .station _ => true
  | _ => false

end NodeT

/-- In/out orientation of an edge slot (`petgraph::Direction`). -/
inductive EdgeDir where
  | incoming
  | outgoing
deriving DecidableEq, Repr

/-- The topology builder (`Builder` in `railroad.rs`), reduced to its graph:
a node list (`NodeIndex` = list position) and a directed edge list. -/
structure Builder where
  nodes : List NodeT
  edges : List (Nat × Nat)
deriving DecidableEq, Repr

namespace Builder

/-- Number of incoming edges of a node
(`neighbors_directed(node, Incoming).count()`). -/
def inDeg (b : Builder) (node : Nat) : Nat :=
  b.edges.countP (fun e => e.2 == node)

/-- Number of outgoing edges of a node
(`neighbors_directed(node, Outgoing).count()`). -/
def outDeg (b : Builder) (node : Nat) : Nat :=
  b.edges.countP (fun e => e.1 == node)

/-- The inner `switch_max_neighbours` of `Builder::can_add_neighbour`. -/
def switch_max_neighbours (ins out : Nat) (dir : EdgeDir) : Bool :=
  if ins < 2 && out < 2 then true
  else !((2 ≤ ins && dir == EdgeDir.incoming) || (2 ≤ out && dir == EdgeDir.outgoing))

/-- Rust `Builder::can_add_neighbour`: `none` when the node index does not
exist; for switches the `switch_max_neighbours` rule, for every other node
kind at most one incoming and one outgoing edge. -/
def can_add_neighbour (b : Builder) (node : Nat) (dir : EdgeDir) : Option Bool :=
  let ins := b.inDeg node
  let out := b.outDeg node
  match b.nodes.get? node with
  | none => none
  | some (.switch _) => some (switch_max_neighbours ins out dir)
  | some _ =>
    some ((dir == EdgeDir.incoming && ins < 1) || (dir == EdgeDir.outgoing && out < 1))

/-- The guts of `petgraph`'s `update_edge`: an existing edge keeps its place
(only its weight would be replaced, and weights are not modelled), a new
edge is appended. -/
def update_edge (edges : List (Nat × Nat)) (src dst : Nat) : List (Nat × Nat) :=
  if edges.contains (src, dst) then edges else edges ++ [(src, dst)]

/-- Rust `Builder::connect`: adds the edge only when the outgoing slot of
`src` and the incoming slot of `dst` are free; `none` (and no mutation)
otherwise, including when either index is invalid. -/
def connect (b : Builder) (src dst : Nat) : Option Builder :=
  match can_add_neighbour b src .outgoing, can_add_neighbour b dst .incoming with
  | some cf, some ct =>
    if cf && ct then some { b with edges := update_edge b.edges src dst } else none
  | _, _ => none

/-- Edge-slot capacity per node kind as the code enforces it: `2` per
direction on a switch, `1` per direction elsewhere. -/
def slotLimit : NodeT → Nat
  | .switch _ => 2
  | _ => 1

end Builder

/-- Whether the node at index `n` of the road is driveable
(`graph.node_weight(*node).is_some_and(|n| n.is_driveable())`). -/
def isDriveableAt (road : List NodeT) (n : Nat) : Bool :=
  match road.get? n with
  | some nd => nd.is_driveable
  | none => false

/-- The route-truncation step of `Train::trigger_drive_to` (`train.rs`):
`pos` is the path length minus the reversed position of the last driveable
node (`unwrap_or(0)` when there is none), and the kept prefix is stored as
`(node, granted = false)` pairs. -/
def truncateRoute (road : List NodeT) (path : List Nat) : List (Nat × Bool) :=
  let pos := path.length - ((path.reverse.findIdx? (fun n => isDriveableAt road n)).getD 0)
  (path.take pos).map (fun i => (i, false))

/-- A train, reduced to the planned route used by `request_next_block` and
`request_route`: a deque of `(node index, granted flag)` pairs, or `none`. -/
structure TrainS where
  route : Option (List (Nat × Bool))
deriving DecidableEq, Repr

/-- The scanning loop of `Train::request_next_block`: walk the route; each
granted signal increments the count, the first not-granted signal stops the
walk and is returned; non-signal nodes are skipped. -/
def scanRoute (road : List NodeT) : List (Nat × Bool) → Nat × Option Nat
  | [] => (0, none)
  | (i, b) :: rest =>
    match road.get? i with
    | some (.signal adr) =>
      if b then
        let (c, nxt) := scanRoute road rest
        (c + 1, nxt)
      else (0, some adr)
    | _ => scanRoute road rest

/-- Rust `Train::request_next_block` (`train.rs`): clears an empty route;
otherwise counts the granted signals ahead and, only when that count is at
least `1`, calls `request_block` on the first not-granted signal (when that
signal exists in the railroad's signal table, here the list `signals`).
The second component reports which signal received a `request_block` call. -/
def request_next_block (road : List NodeT) (signals : List Nat) (t : TrainS) :
    TrainS × Option Nat :=
  match t.route with
  | none => (t, none)
  | some route =>
    if route.isEmpty then ({ route := none }, none)
    else
      let (blocksCount, nextSignal) := scanRoute road route
      if blocksCount < 1 then (t, none)
      else
        match nextSignal with
        | some adr => (t, if signals.contains adr then some adr else none)
        | none => (t, none)

/-- Signal kind (`SignalType` in `components/mod.rs`). -/
inductive SignalType where
  | block
  | path
  | intelligentPath
deriving DecidableEq, Repr

/-- State of one signal (`Signal` in `components/mod.rs`): address, kind,
status, granted trains, the FIFO requester queue and the discovered block
sensors.  The representing node, peer signals and the fairness-group lock
play no part in the embedded sequential operations. -/
structure SignalS where
  address : Nat
  sigType : SignalType
  status : Status
  trains : List Nat
  requesters : List Nat
  block_sensors : List Nat
deriving DecidableEq, Repr

/-- The railroad as the embedded operations see it (`Railroad` in
`railroad.rs`): the graph as a node list plus directed edge list, and the
per-address element tables.  Crossings map an address to that crossing's
two node handles. -/
structure RR where
  road : List NodeT
  edges : List (Nat × Nat)
  sensors : List (Nat × SensorState)
  signals : List (Nat × Status)
  trains : List (Nat × TrainS)
  crossings : List (Nat × (Nat × Nat))
deriving DecidableEq, Repr

namespace RR

/-- Replace the state stored for a sensor address. -/
def setSensor (rr : RR) (adr : Nat) (s : SensorState) : RR :=
  { rr with sensors := rr.sensors.map (fun p => if p.1 == adr then (adr, s) else p) }

end RR

namespace Signal

/-- Rust `Signal::block_behaviour` (`signal_checks.rs`): succeed with the
given sensor list iff every sensor of it that exists in the railroad has
status `Free` or `PathFree`; missing sensors are transparent. -/
def block_behaviour (rr : RR) (sensors : List Nat) : Option (List Nat) :=
  if sensors.all (fun adr =>
      match rr.sensors.lookup adr with
      | some s => s.status == Status.free || s.status == Status.pathFree
      | none => true)
  then some sensors else none

/-- Rust `Signal::path_free` (`signal_checks.rs`): walk the path; the first
`Signal` node decides the whole call (`status == Free || ignore_signal`);
each `Sensor` node must be `Free`; other node kinds are skipped.  The
source unwraps the graph, signal and sensor lookups, so a missing entry is
a panic, embedded as `Except.error`. -/
def path_free (rr : RR) (ignoreSignal : Bool) : List Nat → Except Unit Bool
  | [] => .ok true
  | x :: rest =>
    match rr.road.get? x with
    | none => .error ()
    | some (.signal sig) =>
      match rr.signals.lookup sig with
      | some st => .ok (st == Status.free || ignoreSignal)
      | none => .error ()
    | some (.sensor sen) =>
      match rr.sensors.lookup sen with
      | some s =>
        if s.status == Status.free then path_free rr ignoreSignal rest else .ok false
      | none => .error ()
    | some _ => path_free rr ignoreSignal rest

/-- Rust `Train::request_route` (`train.rs`): locate the given signal on the
route, then return the route slice from it up to and including the next
signal (or the route's end). -/
def request_route (t : TrainS) (signal : Nat) (road : List NodeT) :
    Option (List Nat) :=
  match t.route with
  | none => none
  | some route =>
    match route.findIdx? (fun ib =>
        match road.get? ib.1 with
        | some (.signal adr) => adr == signal
        | _ => false) with
    | none => none
    | some index =>
      let endIdx :=
        match (route.drop (index + 1)).findIdx? (fun ib =>
            match road.get? ib.1 with
            | some (.signal _) => true
            | _ => false) with
        | some i => i + index + 2
        | none => route.length
      some (((route.drop index).take (endIdx - index)).map (fun ib => ib.1))

/-- Rust `Signal::get_route` (`signal_checks.rs`): look the train up and ask
it for its route segment from this signal. -/
def get_route (rr : RR) (train : Nat) (signal : Nat) : Option (List Nat) :=
  match rr.trains.lookup train with
  | none => none
  | some t => request_route t signal rr.road

/-- Rust `Signal::path_behaviour` (`signal_checks.rs`): take the first
requester's route segment; if `path_free` holds on it (signals ignorable
exactly for kind `Path`), fall through to `block_behaviour`. -/
def path_behaviour (rr : RR) (sig : SignalS) : Except Unit (Option (List Nat)) :=
  match sig.requesters.head? with
  | none => .ok none
  | some first =>
    match get_route rr first sig.address with
    | none => .ok none
    | some route =>
      match path_free rr (sig.sigType == SignalType.path) route with
      | .error e => .error e
      | .ok false => .ok none
      | .ok true => .ok (block_behaviour rr sig.block_sensors)

/-- Rust `Signal::intelligent_path_behaviour` (`signal_checks.rs`): like
`path_behaviour`, but on success the road is the route's sensor addresses. -/
def intelligent_path_behaviour (rr : RR) (sig : SignalS) :
    Except Unit (Option (List Nat)) :=
  match sig.requesters.head? with
  | none => .ok none
  | some first =>
    match get_route rr first sig.address with
    | none => .ok none
    | some route =>
      match path_free rr (sig.sigType == SignalType.path) route with
      | .error e => .error e
      | .ok false => .ok none
      | .ok true =>
        .ok (some (route.filterMap (fun idx =>
          match rr.road.get? idx with
          | some (.sensor adr) => some adr
          | _ => none)))

/-- Rust `Signal::drive` (`signal_checks.rs`): no road unless the signal is
`Free`; then the kind-specific behaviour, with `Path` and
`IntelligentPath` falling back to `block_behaviour`. -/
def drive (rr : RR) (sig : SignalS) : Except Unit (Option (List Nat)) :=
  if sig.status != Status.free then .ok none
  else
    match sig.sigType with
    | .block => .ok (block_behaviour rr sig.block_sensors)
    | .path =>
      match path_behaviour rr sig with
      | .error e => .error e
      | .ok (some p) => .ok (some p)
      | .ok none => .ok (block_behaviour rr sig.block_sensors)
    | .intelligentPath =>
      match intelligent_path_behaviour rr sig with
      | .error e => .error e
      | .ok (some p) => .ok (some p)
      | .ok none => .ok (block_behaviour rr sig.block_sensors)

/-- Block every sensor of the free road for the train (the granting loop at
the end of `Signal::next`); missing sensors are skipped. -/
def blockAll (rr : RR) (freeRoad : List Nat) (train : Nat) : RR :=
  freeRoad.foldl (fun acc adr =>
    match acc.sensors.lookup adr with
    | some s => acc.setSensor adr (Sensor.block s train).1
    | none => acc) rr

/-- Rust `Signal::next` (`components/mod.rs`): return if no requester is
queued; compute `drive`; on a free road return early again if the
requester queue is non-empty (the source tests `!is_empty`), else pop the
head requester (`unwrap`, a panic on the empty queue, embedded as
`Except.error`), reserve the signal, append the train to the granted list
and block every sensor of the road. -/
def next (rr : RR) (sig : SignalS) : Except Unit (SignalS × RR) :=
  if sig.requesters.isEmpty then .ok (sig, rr)
  else
    match drive rr sig with
    | .error e => .error e
    | .ok none => .ok (sig, rr)
    | .ok (some freeRoad) =>
      if !sig.requesters.isEmpty then .ok (sig, rr)
      else
        match sig.requesters with
        | [] => .error ()
        | train :: rest =>
          .ok ({ sig with status := Status.reserved,
                          trains := sig.trains ++ [train],
                          requesters := rest },
               blockAll rr freeRoad train)

/-- Rust `Signal::request_block` (`components/mod.rs`): push the train onto
the requester queue, then run `next` on this signal (the source spawns
`get_signal_and_next`, which resolves this signal's address and awaits its
`next`). -/
def request_block (rr : RR) (sig : SignalS) (train : Nat) :
    Except Unit (SignalS × RR) :=
  next rr { sig with requesters := sig.requesters ++ [train] }

end Signal

/-- Outgoing neighbors of a node (`graph.neighbors(n)` on a `DiGraph`). -/
def outNeighbors (edges : List (Nat × Nat)) (n : Nat) : List Nat :=
  (edges.filter (fun e => e.1 == n)).map (fun e => e.2)

/-- Incoming neighbors of a node. -/
def inNeighbors (edges : List (Nat × Nat)) (n : Nat) : List Nat :=
  (edges.filter (fun e => e.2 == n)).map (fun e => e.1)

/-- All neighbors of a node (`graph.neighbors_undirected(n)`).  `petgraph`
iterates each adjacency list most-recent-first; the embedding keeps
insertion order, which only permutes the traversal order. -/
def neighborsUndirected (edges : List (Nat × Nat)) (n : Nat) : List Nat :=
  outNeighbors edges n ++ inNeighbors edges n

/-- Mutable state of `Signal::search_block` (`signal_checks.rs`): the
work deque (front at the head), the visit map, and the two accumulators. -/
structure SearchSt where
  stack : List Nat
  discovered : List Nat
  in_signals : List Nat
  sensors : List Nat
deriving DecidableEq, Repr

/-- The `VisitMap::visit` call: marks the node and reports whether this was
the first visit. -/
def visitNode (disc : List Nat) (n : Nat) : Bool × List Nat :=
  if disc.contains n then (false, disc) else (true, disc ++ [n])

/-- Rust `handle_cross_route` (`signal_checks.rs`): push the crossing's
other node handle. -/
def handle_cross_route (nodes : Nat × Nat) (parent : Nat) (stack : List Nat) :
    List Nat :=
  if nodes.1 == parent then stack ++ [nodes.2] else stack ++ [nodes.1]

/-- Rust `handle_found_node` (`signal_checks.rs`): push the successor onto
the deque; when the parent is a crossing, also push its other handle. -/
def handle_found_node (rr : RR) (stack : List Nat) (succ parent : Nat) :
    List Nat :=
  let stack := stack ++ [succ]
  match rr.road.get? parent with
  | some (.cross adr) =>
    match rr.crossings.lookup adr with
    | some nodes => handle_cross_route nodes parent stack
    | none => stack
  | _ => stack

/-- Rust `handle_successor` (`signal_checks.rs`): mark the successor
visited; if this was its first visit, stop there (the source returns early
exactly on a fresh visit).  Otherwise, a signal parent other than the
searched one with no visited outgoing neighbor is recorded as an input
signal, and any other parent pushes the successor for later expansion. -/
def handle_successor (rr : RR) (signal : Nat) (st : SearchSt)
    (succ parent : Nat) : SearchSt :=
  let (isNew, disc) := visitNode st.discovered succ
  if isNew then { st with discovered := disc }
  else
    match rr.road.get? parent with
    | some (.signal adr) =>
      if !((outNeighbors rr.edges parent).any (fun n => disc.contains n))
          && parent != signal then
        { st with discovered := disc, in_signals := st.in_signals ++ [adr] }
      else { st with discovered := disc }
    | _ => { st with discovered := disc,
                     stack := handle_found_node rr st.stack succ parent }

/-- One round of `search_node_neighbours` plus the sensor recording done by
the caller's `while let` body: pop the deque's front, handle every
undirected neighbor, and append the popped node's address when it is a
`Sensor`; iterate until the deque empties (with explicit fuel, the source
loop's termination being unguarded). -/
def searchInner (rr : RR) (signal : Nat) : Nat → SearchSt → SearchSt
  | 0, st => st
  | fuel + 1, st =>
    match st.stack with
    | [] => st
    | node :: rest =>
      let st1 := (neighborsUndirected rr.edges node).foldl
        (fun acc succ => handle_successor rr signal acc succ node)
        { st with stack := rest }
      let st2 :=
        match rr.road.get? node with
        | some (.sensor adr) => { st1 with sensors := st1.sensors ++ [adr] }
        | _ => st1
      searchInner rr signal fuel st2

/-- Rust `Signal::search_block` (`signal_checks.rs`): for each outgoing
neighbor of the signal's node, mark it visited, seed the deque with it and
drain the deque; returns `(in_signals, sensors)`, the data
`Signal::initialize` stores as `other_input_signals` and `block_sensors`. -/
def search_block (fuel : Nat) (rr : RR) (signal : Nat) : List Nat × List Nat :=
  let final := (outNeighbors rr.edges signal).foldl
    (fun (st : SearchSt) start =>
      let (_, disc) := visitNode st.discovered start
      searchInner rr signal fuel { st with discovered := disc, stack := start :: st.stack })
    { stack := [], discovered := [], in_signals := [], sensors := [] }
  (final.in_signals, final.sensors)

/-- The sensor-state invariant that actually holds on the code: a held train
forces status `Reserved` or `Occupied`, and status `Reserved` forces a held
train.  (`Occupied` does not force a train: the grace-timer body can leave
a train-less sensor `Occupied`.) -/
def SensorInv (s : SensorState) : Prop :=
  (s.train.isSome → s.status = Status.reserved ∨ s.status = Status.occupied) ∧
  (s.status = Status.reserved → s.train.isSome)

/-- Every single sensor operation preserves `SensorInv`. -/
theorem sensorStep_inv (s : SensorState) (op : SensorOp) (h : SensorInv s) :
    SensorInv (sensorStep s op) := by
  obtain ⟨st, lv, tr⟩ := s
  obtain ⟨t⟩ | ⟨lv'⟩ | _ | ⟨t⟩ := op <;>
    [skip; cases lv'; skip; skip] <;>
    cases st <;> cases lv <;> cases tr <;>
      simp_all [sensorStep, Sensor.block, Sensor.handle_sensor_level,
        Sensor.sensorFree, Sensor.free, Sensor.freeSensor, SensorInv, Status.or] <;>
      split <;> simp_all

private theorem sensorFoldl_inv :
    ∀ (ops : List SensorOp) (s : SensorState), SensorInv s →
      SensorInv (ops.foldl sensorStep s)
  | [], _, h => h
  | op :: ops, s, h => sensorFoldl_inv ops (sensorStep s op) (sensorStep_inv s op h)

/-- C5 (amended): in every sensor state reachable from the initial state by
the sensor operations, a `Some` `current_train` implies status `Reserved`
or `Occupied`, and status `Reserved` implies a `Some` `current_train`.
The original two-sided claim fails: `Occupied` with no train is reachable
(see the counterexample). -/
theorem C5_sensor_invariant (ops : List SensorOp) : SensorInv (sensorRun ops) :=
  sensorFoldl_inv ops sensorInit (by constructor <;> intro h <;> simp_all [sensorInit])

/-- C5 counterexample: after `block(1)`, a level-`Occupied` report and
`free(1)`, the sensor's status is `Occupied` while `current_train` is
`None`, so "current_train is Some iff status is Reserved or Occupied" is
false on the code. -/
theorem C5_iff_fails :
    (sensorRun [.block 1, .level .occupied, .release 1]).status = Status.occupied ∧
    (sensorRun [.block 1, .level .occupied, .release 1]).train = none :=
  ⟨rfl, rfl⟩

/-- C6: the cycle block(1), level=Occupied, level=Free, grace timer does NOT
return the sensor to its initial state: the code never stores the
level-`Free` report, so the grace body's cascaded `free` reads the stale
`Occupied` level and ends at status `Occupied`, level `Occupied`, no
train, instead of the initial all-`Free` state. -/
theorem C6_cycle_not_identity :
    sensorRun [.block 1, .level .occupied, .level .free, .grace]
      = { status := .occupied, level := .occupied, train := none } ∧
    sensorRun [.block 1, .level .occupied, .level .free, .grace] ≠ sensorInit :=
  ⟨rfl, by decide⟩

/-- With actual speed `Stop` and target `Stop`, the ramp loop never breaks:
`Stop < Stop` fails in both break tests and `Stop - Drive(5)` is `Stop`. -/
theorem rampRun_stop_stop (fuel : Nat) : rampRun fuel Speed.stop Speed.stop = none := by
  induction fuel with
  | zero => rfl
  | succ n ih =>
    have h1 : Speed.lt Speed.stop Speed.stop = false := rfl
    have h2 : Speed.sub Speed.stop (Speed.drive Speed.defaultAcceleration)
        = Speed.stop := rfl
    simp [rampRun, h1, h2, ih]

/-- C10: the uninterrupted ramp from `Drive(10)` toward `Stop` never
terminates: the reversed-operand subtraction takes the speed to `Stop` in
one step, and from `actual = target = Stop` neither break condition can
ever hold, so for every iteration bound the loop is still running (and the
claimed final publication of the target never happens). -/
theorem C10_ramp_diverges (fuel : Nat) :
    rampRun fuel (Speed.drive 10) Speed.stop = none := by
  cases fuel with
  | zero => rfl
  | succ n =>
    have h1 : Speed.lt (Speed.drive 10) Speed.stop = false := rfl
    have h2 : Speed.sub (Speed.drive 10) (Speed.drive Speed.defaultAcceleration)
        = Speed.stop := rfl
    have h3 : Speed.lt Speed.stop Speed.stop = false := rfl
    simp [rampRun, h1, h2, h3, rampRun_stop_stop n]

/-- C8: commanding a switch to `Curved` while it stores `Straight` clears
the acknowledgement flag and emits `Switch(addr, Curved)`, but the stored
commanded direction stays `Straight` — `Switch::switch` never assigns
`self.dir`, contradicting "the switch's commanded direction equals dir". -/
theorem C8_switch_keeps_old_direction :
    Switch.switch { dir := .straight, updated := true } .curved
      = ({ dir := .straight, updated := false }, some .curved) ∧
    ({ dir := .straight, updated := false } : SwitchS).dir ≠ SwDir.curved :=
  ⟨rfl, by decide⟩

/-- A Block signal with one pending requester and one (free) block sensor. -/
def sigC1 : SignalS :=
  { address := 80, sigType := .block, status := .free,
    trains := [], requesters := [7], block_sensors := [1] }

/-- A railroad holding just the free sensor `1` of `sigC1`'s block. -/
def rrC1 : RR :=
  { road := [], edges := [], sensors := [(1, sensorInit)], signals := [],
    trains := [], crossings := [] }

/-- C1: the grant decision finds a free road (`drive` returns the free
sensors of the block), yet `Signal::next` changes nothing: it returns early
because its re-check after taking the group lock tests `!is_empty` on the
requester queue, which is always true there; the head requester is not
popped, the status stays `Free`, no train is granted and no sensor is
blocked. -/
theorem C1_next_never_grants :
    Signal.drive rrC1 sigC1 = .ok (some [1]) ∧
    Signal.next rrC1 sigC1 = .ok (sigC1, rrC1) ∧
    sigC1.requesters = [7] ∧ sigC1.trains = [] ∧ sigC1.status = Status.free :=
  ⟨rfl, rfl, rfl, rfl, rfl⟩

/-- Signal `next` leaves a Block signal and the railroad unchanged: the
grant branch behind the inverted emptiness re-check is unreachable. -/
theorem next_block_id (rr : RR) (sig : SignalS) (h : sig.sigType = .block) :
    Signal.next rr sig = .ok (sig, rr) := by
  unfold Signal.next
  by_cases he : sig.requesters.isEmpty
  · simp [he]
  · have hd : ∃ x, Signal.drive rr sig = .ok x := by
      unfold Signal.drive
      rw [h]
      by_cases hs : sig.status != Status.free
      · exact ⟨none, by simp [hs]⟩
      · exact ⟨Signal.block_behaviour rr sig.block_sensors, by simp [hs]⟩
    obtain ⟨x, hx⟩ := hd
    cases x with
    | none => simp [he, hx]
    | some road => simp [he, hx]

/-- C3 (amended): `request_block` is not idempotent — every call appends the
train to `pending_requesters` unconditionally (there is no already-queued /
already-granted check) and changes nothing else; in particular a repeated
call adds a duplicate queue entry. -/
theorem C3_request_block_appends (sig : SignalS) (rr : RR) (t : Nat)
    (h : sig.sigType = .block) :
    Signal.request_block rr sig t
      = .ok ({ sig with requesters := sig.requesters ++ [t] }, rr) := by
  unfold Signal.request_block
  exact next_block_id rr { sig with requesters := sig.requesters ++ [t] } h

/-- A Block signal with an empty requester queue, for the C3 witness and
counterexample. -/
def sigC3 : SignalS :=
  { address := 81, sigType := .block, status := .free,
    trains := [], requesters := [], block_sensors := [] }

/-- A railroad with no elements, for the C3 witness and counterexample. -/
def rrC3 : RR :=
  { road := [], edges := [], sensors := [], signals := [], trains := [],
    crossings := [] }

/-- C3 witness: the amended statement holds at a concrete Block signal. -/
theorem C3_witness :
    sigC3.sigType = SignalType.block ∧
    Signal.request_block rrC3 sigC3 7
      = .ok ({ sigC3 with requesters := sigC3.requesters ++ [7] }, rrC3) :=
  ⟨rfl, C3_request_block_appends sigC3 rrC3 7 rfl⟩

/-- C3 counterexample: a first `request_block(7)` leaves the queue `[7]`; a
second call while `7` is already queued yields `[7, 7]`, not the state
after a single call, so idempotence per (signal, train) fails. -/
theorem C3_not_idempotent :
    Signal.request_block rrC3 sigC3 7
      = .ok ({ sigC3 with requesters := [7] }, rrC3) ∧
    Signal.request_block rrC3 { sigC3 with requesters := [7] } 7
      = .ok ({ sigC3 with requesters := [7, 7] }, rrC3) ∧
    ([7, 7] : List Nat) ≠ [7] :=
  ⟨rfl, rfl, by decide⟩

/-- The road for the C2 failing input: a sensor, then signal `81`, then the
destination sensor. -/
def roadC2 : List NodeT := [.sensor 1, .signal 81, .sensor 2]

/-- The C2 train: a fresh route over `roadC2` with no granted flag set. -/
def trainC2 : TrainS := { route := some [(0, false), (1, false), (2, false)] }

/-- C2: with zero granted signals ahead (`blocks_count = 0 < LOOKAHEAD = 1`)
and signal `81` as the first not-granted signal of the route,
`request_next_block` issues no request at all: the source returns early on
`blocks_count < 1`, which is the exact opposite of the claimed "request
when the granted count is below the lookahead limit". -/
theorem C2_no_request_when_none_granted :
    request_next_block roadC2 [81] trainC2 = (trainC2, none) ∧
    scanRoute roadC2 [(0, false), (1, false), (2, false)] = (0, some 81) :=
  ⟨rfl, rfl⟩

/-- The C4 failing topology: signal `80` at node 0, sensor `1` at node 1,
sensor `2` at node 2, with edges 0 → 1 → 2 and no signal between the two
sensors. -/
def rrC4 : RR :=
  { road := [.signal 80, .sensor 1, .sensor 2], edges := [(0, 1), (1, 2)],
    sensors := [], signals := [], trains := [], crossings := [] }

/-- C4: on the chain Signal 80 → Sensor 1 → Sensor 2 the block search
returns only sensor `1`: `handle_successor` returns early exactly when the
successor is freshly visited (the source tests `discovered.visit(succ)`,
which is true on a first visit), so the search never descends past the
signal's immediate neighbor and sensor `2` — reachable without crossing
any other signal — is missing from `block_sensors`. -/
theorem C4_search_block_misses_sensor :
    search_block 100 rrC4 0 = ([], [1]) ∧
    rrC4.road.get? 2 = some (.sensor 2) ∧ (1, 2) ∈ rrC4.edges ∧
    2 ∉ (search_block 100 rrC4 0).2 :=
  ⟨rfl, rfl, by decide, by decide⟩

/-- On the outgoing side, the switch rule of `can_add_neighbour` reduces to
"fewer than 2 outgoing edges". -/
theorem smn_outgoing (i o : Nat) :
    Builder.switch_max_neighbours i o .outgoing = decide (o < 2) := by
  unfold Builder.switch_max_neighbours
  by_cases h1 : i < 2 <;> by_cases h2 : o < 2 <;> simp [h1, h2] <;> omega

/-- On the incoming side, the switch rule of `can_add_neighbour` reduces to
"fewer than 2 incoming edges". -/
theorem smn_incoming (i o : Nat) :
    Builder.switch_max_neighbours i o .incoming = decide (i < 2) := by
  unfold Builder.switch_max_neighbours
  by_cases h1 : i < 2 <;> by_cases h2 : o < 2 <;> simp [h1, h2]

/-- The outgoing slot test of `can_add_neighbour`, as a degree bound. -/
theorem can_add_out (b : Builder) (node : Nat) (h : node < b.nodes.length) :
    Builder.can_add_neighbour b node .outgoing
      = some (decide (b.outDeg node < Builder.slotLimit (b.nodes.get ⟨node, h⟩))) := by
  unfold Builder.can_add_neighbour
  rw [List.get?_eq_get h]
  cases hn : b.nodes.get ⟨node, h⟩ <;>
    simp [smn_outgoing, Builder.slotLimit]

/-- The incoming slot test of `can_add_neighbour`, as a degree bound. -/
theorem can_add_in (b : Builder) (node : Nat) (h : node < b.nodes.length) :
    Builder.can_add_neighbour b node .incoming
      = some (decide (b.inDeg node < Builder.slotLimit (b.nodes.get ⟨node, h⟩))) := by
  unfold Builder.can_add_neighbour
  rw [List.get?_eq_get h]
  cases hn : b.nodes.get ⟨node, h⟩ <;>
    simp [smn_incoming, Builder.slotLimit]

/-- C9 (amended): for valid node indices, `connect` inserts the edge exactly
when the outgoing degree of `src` and the incoming degree of `dst` are
below the code's per-kind slot capacity — `2` per direction for a switch
(so a second outgoing edge on a 2-in/1-out switch is accepted, reaching the
2-in/2-out fan-out), `1` per direction for every other node kind — and
returns `none`, leaving the graph unchanged, otherwise. -/
theorem C9_connect_spec (b : Builder) (src dst : Nat)
    (h1 : src < b.nodes.length) (h2 : dst < b.nodes.length) :
    Builder.connect b src dst =
      if b.outDeg src < Builder.slotLimit (b.nodes.get ⟨src, h1⟩) ∧
         b.inDeg dst < Builder.slotLimit (b.nodes.get ⟨dst, h2⟩)
      then some { b with edges := Builder.update_edge b.edges src dst }
      else none := by
  unfold Builder.connect
  rw [can_add_out b src h1, can_add_in b dst h2]
  by_cases ho : b.outDeg src < Builder.slotLimit (b.nodes.get ⟨src, h1⟩) <;>
    by_cases hi : b.inDeg dst < Builder.slotLimit (b.nodes.get ⟨dst, h2⟩) <;>
      simp [ho, hi]

/-- A switch (node 0) that already has the full legal 2-in/1-out fan-out,
plus a spare sensor (node 4) to connect to. -/
def b9 : Builder :=
  { nodes := [.switch 5, .sensor 1, .sensor 2, .sensor 3, .sensor 4],
    edges := [(1, 0), (2, 0), (0, 3)] }

/-- C9 counterexample: node 0 is a switch with 2 incoming and 1 outgoing
edges — the maximal fan-out the claim calls legal — so by the claim a
further outgoing connect must fail; the code accepts it, producing a
2-in/2-out switch. -/
theorem C9_switch_overfull_accepted :
    b9.nodes.get? 0 = some (.switch 5) ∧
    Builder.inDeg b9 0 = 2 ∧ Builder.outDeg b9 0 = 1 ∧
    Builder.connect b9 0 4 ≠ none := by
  refine ⟨rfl, rfl, rfl, ?_⟩
  decide

/-- C9 witness: the amended characterization applied to `b9` — the connect
is accepted and appends the edge `(0, 4)`. -/
theorem C9_witness :
    Builder.connect b9 0 4 = some { b9 with edges := b9.edges ++ [(0, 4)] } := by
  rw [C9_connect_spec b9 0 4 (by decide) (by decide)]
  decide

/-- C7 (amended): whenever the raw planner path contains at least one
driveable node (in particular whenever it starts at a sensor or station,
where trains live), the route stored by `trigger_drive_to` is non-empty
and its last element is a driveable node.  (When the path contains no
driveable node, the `unwrap_or(0)` keeps the whole path — see the
counterexample.) -/
theorem C7_truncation (road : List NodeT) (path : List Nat)
    (h : ∃ n ∈ path, isDriveableAt road n = true) :
    truncateRoute road path ≠ [] ∧
    ∃ i, (truncateRoute road path).getLast? = some (i, false) ∧
         isDriveableAt road i = true := by
  obtain ⟨k, hk⟩ :
      ∃ k, path.reverse.findIdx? (fun n => isDriveableAt road n) = some k := by
    cases hf : path.reverse.findIdx? (fun n => isDriveableAt road n) with
    | none =>
      exfalso
      obtain ⟨n, hn, hp⟩ := h
      have hfalse := List.findIdx?_eq_none_iff.mp hf n (List.mem_reverse.mpr hn)
      rw [hp] at hfalse
      exact Bool.noConfusion hfalse
    | some k => exact ⟨k, rfl⟩
  obtain ⟨hklt2, hfi⟩ := List.findIdx?_eq_some_iff_findIdx_eq.mp hk
  have hklt : k < path.length := by
    rw [List.length_reverse] at hklt2; exact hklt2
  have hx : isDriveableAt road (path.reverse.get ⟨k, hklt2⟩) = true := by
    have w : path.reverse.findIdx (fun n => isDriveableAt road n)
        < path.reverse.length := by rw [hfi]; exact hklt2
    have hp := @List.findIdx_getElem _ (fun n => isDriveableAt road n) path.reverse w
    simpa [hfi, List.get_eq_getElem] using hp
  have htr : truncateRoute road path
      = (path.take (path.length - k)).map (fun i => (i, false)) := by
    simp [truncateRoute, hk]
  have hlen : (path.take (path.length - k)).length = path.length - k := by
    rw [List.length_take]; omega
  have hget : (path.take (path.length - k)).getLast?
      = path.get? (path.length - k - 1) := by
    rw [List.getLast?_eq_get?, hlen]
    exact List.get?_take (by omega)
  have hrevget : path.reverse.get? k = path.get? (path.length - 1 - k) :=
    List.get?_reverse hklt
  have hsome : path.get? (path.length - k - 1)
      = some (path.reverse.get ⟨k, hklt2⟩) := by
    have h1 : path.reverse.get? k = some (path.reverse.get ⟨k, hklt2⟩) :=
      List.get?_eq_get hklt2
    have heq : path.length - k - 1 = path.length - 1 - k := by omega
    rw [heq, ← hrevget]
    exact h1
  have hlast : (truncateRoute road path).getLast?
      = some (path.reverse.get ⟨k, hklt2⟩, false) := by
    rw [htr, List.getLast?_map, hget, hsome]
    rfl
  refine ⟨?_, path.reverse.get ⟨k, hklt2⟩, hlast, hx⟩
  intro hnil
  rw [hnil] at hlast
  simp at hlast

/-- The C7 counterexample topology: a signal at node 0 and a switch at node
1, joined by the single edge 0 → 1. -/
def g7 : List NodeT := [.signal 80, .switch 9]

/-- The edge list of the C7 counterexample topology. -/
def e7 : List (Nat × Nat) := [(0, 1)]

/-- Modelled from the spec: the route planner (`Railroad::shortest_path`,
A* over the directed graph) is external library code; whatever path it
returns is a directed path from `start` to `destination` — head `s`, last
element `d`, and consecutive elements joined by edges. -/
def isRoadPath (edges : List (Nat × Nat)) (p : List Nat) (s d : Nat) : Prop :=
  p.head? = some s ∧ p.getLast? = some d ∧
  List.Chain' (fun a b => (a, b) ∈ edges) p

/-- C7 counterexample: from the signal (node 0) to the switch (node 1) the
only path the planner can find is `[0, 1]`; it contains no driveable node,
so the truncation's `unwrap_or(0)` keeps the whole path and the stored
route's last element is the switch — not a Sensor or Station node, contra
the claim. -/
theorem C7_planner_path_not_truncated :
    isRoadPath e7 [0, 1] 0 1 ∧
    (∀ p, isRoadPath e7 p 0 1 → p = [0, 1]) ∧
    truncateRoute g7 [0, 1] = [(0, false), (1, false)] ∧
    isDriveableAt g7 1 = false := by
  refine ⟨⟨rfl, rfl, by simp [e7]⟩, ?_, rfl, rfl⟩
  rintro p ⟨h1, h2, h3⟩
  rcases p with _ | ⟨a, _ | ⟨b, rest⟩⟩
  · simp at h1
  · simp at h1 h2
    omega
  · simp at h1
    subst h1
    rw [List.chain'_cons] at h3
    obtain ⟨hab, h3'⟩ := h3
    have hb : b = 1 := by
      simp [e7] at hab
      exact hab
    subst hb
    rcases rest with _ | ⟨c, rest2⟩
    · rfl
    · rw [List.chain'_cons] at h3'
      obtain ⟨hbc, _⟩ := h3'
      simp [e7] at hbc

/-- C7 witness: the amended statement at the one-sensor road with the
one-node path `[0]`. -/
theorem C7_witness :
    (∃ n ∈ ([0] : List Nat), isDriveableAt [NodeT.sensor 1] n = true) ∧
    (truncateRoute [NodeT.sensor 1] [0] ≠ [] ∧
     ∃ i, (truncateRoute [NodeT.sensor 1] [0]).getLast? = some (i, false) ∧
          isDriveableAt [NodeT.sensor 1] i = true) :=
  ⟨⟨0, by decide, rfl⟩, C7_truncation [NodeT.sensor 1] [0] ⟨0, by decide, rfl⟩⟩
